import Mathlib

/-!
Verification development for the PocketNavi search and data-normalization
core: the Supabase query layer (`services/supabase-api.ts`, file
`src/unnamed/part_000`), the availability-toggle hook and the slug helpers
(`src/App.tsx`).

The TypeScript code is shallowly embedded: JavaScript runtime values that
the normalizer inspects dynamically are modelled by `JVal`; numbers are
modelled by rationals (the arithmetic the code performs is exact on the
values that occur); code that can throw returns `Except String`.
-/

/-- A JavaScript value as seen by the untyped (`any`) row normalizer:
SQL NULL, a missing property, a string, a number, or an array of strings
(the shape a normalized taxonomy field has). -/
inductive JVal where
  | null : JVal
  | undef : JVal
  | str : String → JVal
  | num : ℚ → JVal
  | list : List String → JVal
deriving DecidableEq

/-- JavaScript truthiness for the values of `JVal`: null, undefined, the
empty string and the number 0 are falsy; arrays (even empty ones) are
truthy. -/
def truthy : JVal → Bool
  | JVal.null => false
  | JVal.undef => false
  | JVal.str s => s ≠ ""
  | JVal.num q => q ≠ 0
  | JVal.list _ => true

/-- The whitespace characters recognized by JavaScript `\s`, `trim` and
`parseInt`/`parseFloat` (restricted to the ASCII range; the titles the
slug and search code handles only ever contain ASCII whitespace). -/
def jsSpace (c : Char) : Bool :=
  c = ' ' || c = '\t' || c = '\n' || c = '\r' || c = '\x0b' || c = '\x0c'

/-- JavaScript `String.prototype.trim` on a character list: drop
whitespace from both ends. -/
def jsTrimList (l : List Char) : List Char :=
  ((l.dropWhile jsSpace).reverse.dropWhile jsSpace).reverse

/-- JavaScript `String.prototype.trim`. -/
def jsTrim (s : String) : String :=
  String.mk (jsTrimList s.data)

/-- ASCII lower-casing of one character, the fragment of JavaScript
`toLowerCase` exercised by the code (non-ASCII characters are unchanged). -/
def charLower (c : Char) : Char :=
  if 'A' ≤ c && c ≤ 'Z' then Char.ofNat (c.toNat + 32) else c

/-- Whether `p` is a prefix of `l` (Boolean). -/
def isPrefixList (p l : List Char) : Bool :=
  match p, l with
  | [], _ => true
  | _ :: _, [] => false
  | a :: as, b :: bs => a = b && isPrefixList as bs

/-- Whether `needle` occurs contiguously inside the second list. -/
def containsSeg (needle : List Char) : List Char → Bool
  | [] => needle.isEmpty
  | c :: rest => isPrefixList needle (c :: rest) || containsSeg needle rest

/-- Case-insensitive substring test: JavaScript
`s.toLowerCase().includes(q.toLowerCase())` (ASCII lowering). -/
def containsCI (s q : String) : Bool :=
  containsSeg (q.data.map charLower) (s.data.map charLower)

/-- Digit list of a natural number, most significant first: the characters
JavaScript template-literal stringification produces for a non-negative
integer. -/
def natDigits (n : Nat) : List Char :=
  if h : n < 10 then [Char.ofNat (48 + n)]
  else natDigits (n / 10) ++ [Char.ofNat (48 + n % 10)]
decreasing_by exact Nat.div_lt_self (by omega) (by omega)

/-- Decimal string of a natural number. -/
def natToString (n : Nat) : String :=
  String.mk (natDigits n)

/-- JavaScript stringification of an integer-valued number. -/
def intToString (i : Int) : String :=
  if i < 0 then "-" ++ natToString (-i).toNat else natToString i.toNat

/-- Value of a list of decimal digit characters. -/
def digitsVal (l : List Char) : Nat :=
  l.foldl (fun a c => a * 10 + (c.toNat - 48)) 0

/-- Leading decimal-digit run of a character list, as a number; `none`
when there is no leading digit (JavaScript `parseInt` yields NaN then). -/
def parseDigits (l : List Char) : Option Nat :=
  let ds := l.takeWhile Char.isDigit
  if ds = [] then none else some (digitsVal ds)

/-- JavaScript `parseInt(s, 10)`: skip leading whitespace, an optional
sign, then the longest digit prefix; `none` models NaN. -/
def parseIntJS (s : String) : Option Int :=
  let l := s.data.dropWhile jsSpace
  match l with
  | [] => none
  | c :: rest =>
    if c = '-' then (parseDigits rest).map (fun v => -(v : Int))
    else if c = '+' then (parseDigits rest).map (fun v => (v : Int))
    else (parseDigits l).map (fun v => (v : Int))

/-- JavaScript `parseFloat` on a string: optional sign, integer digits,
optional fraction digits (exponent forms do not occur in this data);
`none` models NaN. -/
def parseFloatStr (s : String) : Option ℚ :=
  let l := s.data.dropWhile jsSpace
  let sign : Bool := match l with
    | '-' :: _ => true
    | _ => false
  let l2 : List Char := match l with
    | '-' :: rest => rest
    | '+' :: rest => rest
    | _ => l
  let intPart := l2.takeWhile Char.isDigit
  let rest := l2.dropWhile Char.isDigit
  let fracPart : List Char := match rest with
    | '.' :: r2 => r2.takeWhile Char.isDigit
    | _ => []
  if intPart = [] ∧ fracPart = [] then none
  else
    let v : ℚ := (digitsVal intPart : ℚ) + (digitsVal fracPart : ℚ) / ((10 : ℚ) ^ fracPart.length)
    some (if sign then -v else v)

/-! ## Data model

Rows of `buildings_table_2` joined with `building_architects(architects_table)`
and `photos`, and the canonical `Building` produced by
`SupabaseApiClient.transformBuilding`. -/

/-- A row of `architects_table` as embedded by the join. `architectEn` is
kept optional because the transform guards it with `|| architectJa`. -/
structure ArchTRow where
  architect_id : Int
  architectJa : String
  architectEn : Option String
deriving DecidableEq

/-- A row of the `building_architects` join table with its embedded
architect row. -/
structure BARow where
  architects_table : ArchTRow
deriving DecidableEq

/-- A row of the `photos` relation (only the fields needed here). -/
structure PhotoRow where
  id : Int
  url : String
deriving DecidableEq

/-- The canonical `Architect` record produced by the transform. -/
structure Architect where
  architect_id : Int
  architectJa : String
  architectEn : String
  websites : List String
deriving DecidableEq

/-- The canonical `Building` view model. `prefectures` stays optional
because `transformBuilding` passes the nullable column through untouched. -/
structure Building where
  id : Int
  uid : String
  title : String
  titleEn : String
  thumbnailUrl : String
  youtubeUrl : String
  completionYears : Int
  parentBuildingTypes : List String
  buildingTypes : List String
  parentStructures : List String
  structures : List String
  prefectures : Option String
  areas : String
  location : String
  architectDetails : String
  lat : ℚ
  lng : ℚ
  architects : List Architect
  photos : List PhotoRow
  likes : Int
  created_at : String
  updated_at : String
deriving DecidableEq

/-- A raw joined row as the untyped transform sees it. Scalar columns are
JavaScript values (`JVal`); the two relations keep their structured shape
(`none` models an absent property). -/
structure RawRow where
  building_id : JVal
  uid : JVal
  title : JVal
  titleEn : JVal
  thumbnailUrl : JVal
  youtubeUrl : JVal
  completionYears : JVal
  parentBuildingTypes : JVal
  buildingTypes : JVal
  parentStructures : JVal
  structures : JVal
  prefectures : JVal
  areas : JVal
  location : JVal
  architectDetails : JVal
  lat : JVal
  lng : JVal
  created_at : JVal
  updated_at : JVal
  building_architects : Option (List BARow)
  photos : Option (List PhotoRow)
deriving DecidableEq

/-- The `SearchFilters` input structure. `currentLocation` carries
`(lat, lng)`. -/
structure SearchFilters where
  query : String
  radius : ℚ
  architects : List String
  buildingTypes : List String
  prefectures : List String
  areas : List String
  hasPhotos : Bool
  hasVideos : Bool
  currentLocation : Option (ℚ × ℚ)
deriving DecidableEq

/-! ## Row normalizer (`transformBuilding`) -/

/-- JavaScript `split(',')` on a character list; the empty string yields
one empty chunk. -/
def splitAtComma : List Char → List (List Char)
  | [] => [[]]
  | c :: cs =>
    if c = ',' then [] :: splitAtComma cs
    else
      match splitAtComma cs with
      | [] => [[c]]
      | h :: t => (c :: h) :: t

/-- Split a comma-separated string into trimmed non-empty tokens:
`str.split(',').map(s => s.trim()).filter(s => s.length > 0)`. -/
def splitTrim (s : String) : List String :=
  (((splitAtComma s.data).map (fun l => String.mk (jsTrimList l))).filter (fun t => t ≠ ""))

/-- The `parseCommaSeparated` helper of `transformBuilding`: falsy input
yields `[]`; a string is split; any other truthy value makes JavaScript
throw (`.split` is not a function on numbers or arrays). -/
def parseCommaSeparated (v : JVal) : Except String (List String) :=
  if truthy v = false then Except.ok []
  else match v with
    | JVal.str s => Except.ok (splitTrim s)
    | _ => Except.error "split is not a function"

/-- Total variant of `parseCommaSeparated`, used to state the value the
transform produces once its checks have passed. -/
def pcsTotal (v : JVal) : List String :=
  match v with
  | JVal.str s => splitTrim s
  | _ => []

/-- JavaScript string coercion used by `parseYear`: `parseInt` converts
its argument to a string first. Integer-valued numbers print their
decimal digits; an array joins with commas; other shapes do not occur. -/
def jvalToNumString (v : JVal) : String :=
  match v with
  | JVal.str s => s
  | JVal.num q => if q.den = 1 then intToString q.num else intToString (Int.tdiv q.num q.den)
  | JVal.list l => String.intercalate "," l
  | _ => ""

/-- The `parseYear` helper: falsy input defaults to the current year;
otherwise `parseInt(year, 10)` with the current year substituted for NaN. -/
def parseYear (currentYear : Int) (v : JVal) : Int :=
  if truthy v = false then currentYear
  else (parseIntJS (jvalToNumString v)).getD currentYear

/-- `parseFloat(x) || 0`: a number is itself, a parsable string its value,
anything NaN-producing (and 0 itself) collapses to 0. -/
def parseFloatOr0 (v : JVal) : ℚ :=
  match v with
  | JVal.num q => q
  | JVal.str s => (parseFloatStr s).getD 0
  | JVal.list l => (parseFloatStr (String.intercalate "," l)).getD 0
  | _ => 0

/-- Value of a string field (used when the checks guarantee a string). -/
def strOfJ (v : JVal) : String :=
  match v with
  | JVal.str s => s
  | _ => ""

/-- Nullable string pass-through. -/
def optStrOfJ (v : JVal) : Option String :=
  match v with
  | JVal.str s => some s
  | _ => none

/-- Integer value of a numeric field. -/
def intOfJ (v : JVal) : Int :=
  match v with
  | JVal.num q => q.num
  | _ => 0

/-- `x || fallback` on a string-or-null field. -/
def jsOrElse (v : JVal) (fallback : String) : String :=
  if truthy v then strOfJ v else fallback

/-- `architectEn || architectJa` on the embedded architect row. -/
def archEnOr (v : Option String) (ja : String) : String :=
  match v with
  | some s => if s = "" then ja else s
  | none => ja

/-- One architect stub of the `architects` field. -/
def mkArchitect (ba : BARow) : Architect :=
  { architect_id := ba.architects_table.architect_id
    architectJa := ba.architects_table.architectJa
    architectEn := archEnOr ba.architects_table.architectEn ba.architects_table.architectJa
    websites := [] }

/-- The Building value `transformBuilding` assembles, field by field in
source order, once no check has thrown. `currentYear` stands for
`new Date().getFullYear()` and `nowIso` for `new Date().toISOString()`. -/
def buildingOfRow (currentYear : Int) (nowIso : String) (r : RawRow) : Building :=
  { id := intOfJ r.building_id
    uid := strOfJ r.uid
    title := strOfJ r.title
    titleEn := jsOrElse r.titleEn (strOfJ r.title)
    thumbnailUrl := jsOrElse r.thumbnailUrl ""
    youtubeUrl := jsOrElse r.youtubeUrl ""
    completionYears := parseYear currentYear r.completionYears
    parentBuildingTypes := pcsTotal r.parentBuildingTypes
    buildingTypes := pcsTotal r.buildingTypes
    parentStructures := pcsTotal r.parentStructures
    structures := pcsTotal r.structures
    prefectures := optStrOfJ r.prefectures
    areas := strOfJ r.areas
    location := strOfJ r.location
    architectDetails := jsOrElse r.architectDetails ""
    lat := parseFloatOr0 r.lat
    lng := parseFloatOr0 r.lng
    architects := ((r.building_architects).map (fun l => l.map mkArchitect)).getD []
    photos := []
    likes := 0
    created_at := jsOrElse r.created_at nowIso
    updated_at := jsOrElse r.updated_at nowIso }

/-- Check that a field which the code stores into a string-typed slot
really is a string when truthy (a falsy value takes the `||` fallback). -/
def strIfTruthy (v : JVal) : Except String Unit :=
  if truthy v then
    match v with
    | JVal.str _ => Except.ok ()
    | _ => Except.error "expected a string"
  else Except.ok ()

/-- Check for a mandatory string column. -/
def asStr (v : JVal) : Except String Unit :=
  match v with
  | JVal.str _ => Except.ok ()
  | _ => Except.error "expected a string"

/-- Check for a nullable string column. -/
def asStrOrNull (v : JVal) : Except String Unit :=
  match v with
  | JVal.str _ => Except.ok ()
  | JVal.null => Except.ok ()
  | _ => Except.error "expected a string or null"

/-- Check for an integer-valued numeric column. -/
def asIntNum (v : JVal) : Except String Unit :=
  match v with
  | JVal.num q => if q.den = 1 then Except.ok () else Except.error "expected an integer"
  | _ => Except.error "expected a number"

/-- `SupabaseApiClient.transformBuilding`. The genuine JavaScript failure
points come first: the four `parseCommaSeparated` calls throw on any
truthy value without a `split` method (in source order). The remaining
checks only pin the dynamic values to the typed `Building` carrier; they
never fail on a row that matches the database schema. On success the
result is `buildingOfRow`. -/
def transformBuilding (currentYear : Int) (nowIso : String) (r : RawRow) : Except String Building := do
  let _ ← parseCommaSeparated r.parentBuildingTypes
  let _ ← parseCommaSeparated r.buildingTypes
  let _ ← parseCommaSeparated r.parentStructures
  let _ ← parseCommaSeparated r.structures
  let _ ← asIntNum r.building_id
  let _ ← asStr r.uid
  let _ ← asStr r.title
  let _ ← strIfTruthy r.titleEn
  let _ ← strIfTruthy r.thumbnailUrl
  let _ ← strIfTruthy r.youtubeUrl
  let _ ← asStrOrNull r.prefectures
  let _ ← asStr r.areas
  let _ ← asStr r.location
  let _ ← strIfTruthy r.architectDetails
  let _ ← strIfTruthy r.created_at
  let _ ← strIfTruthy r.updated_at
  pure (buildingOfRow currentYear nowIso r)

/-- The raw-row view of an already-normalized `Building`, i.e. the
property reads `transformBuilding` performs when handed its own output:
`building_id` and `building_architects` are absent (the Building has `id`
and `architects` instead), `completionYears` has become a number and the
taxonomy fields arrays. -/
def Building.asRaw (b : Building) : RawRow :=
  { building_id := JVal.undef
    uid := JVal.str b.uid
    title := JVal.str b.title
    titleEn := JVal.str b.titleEn
    thumbnailUrl := JVal.str b.thumbnailUrl
    youtubeUrl := JVal.str b.youtubeUrl
    completionYears := JVal.num (b.completionYears : ℚ)
    parentBuildingTypes := JVal.list b.parentBuildingTypes
    buildingTypes := JVal.list b.buildingTypes
    parentStructures := JVal.list b.parentStructures
    structures := JVal.list b.structures
    prefectures := match b.prefectures with
      | some s => JVal.str s
      | none => JVal.null
    areas := JVal.str b.areas
    location := JVal.str b.location
    architectDetails := JVal.str b.architectDetails
    lat := JVal.num b.lat
    lng := JVal.num b.lng
    created_at := JVal.str b.created_at
    updated_at := JVal.str b.updated_at
    building_architects := none
    photos := some b.photos }

/-- Whether a value is a string. -/
def isStrB (v : JVal) : Bool :=
  match v with
  | JVal.str _ => true
  | _ => false

/-- Whether a value is a string or SQL NULL. -/
def isStrOrNullB (v : JVal) : Bool :=
  match v with
  | JVal.str _ => true
  | JVal.null => true
  | _ => false

/-- Whether a value is an integer-valued number. -/
def isIntNumB (v : JVal) : Bool :=
  match v with
  | JVal.num q => q.den = 1
  | _ => false

/-- Whether a value is a number or SQL NULL. -/
def isNumOrNullB (v : JVal) : Bool :=
  match v with
  | JVal.num _ => true
  | JVal.null => true
  | _ => false

/-- Whether a value is a number. -/
def isNumB (v : JVal) : Bool :=
  match v with
  | JVal.num _ => true
  | _ => false

/-- The rows the database schema can actually deliver: `building_id` an
integer, `uid`/`title`/`areas`/`location`/timestamps strings, the other
scalar columns strings or NULL, coordinates numbers or NULL. -/
def wellTypedRow (r : RawRow) : Prop :=
  isIntNumB r.building_id = true
  ∧ isStrB r.uid = true
  ∧ isStrB r.title = true
  ∧ isStrOrNullB r.titleEn = true
  ∧ isStrOrNullB r.thumbnailUrl = true
  ∧ isStrOrNullB r.youtubeUrl = true
  ∧ isStrOrNullB r.completionYears = true
  ∧ isStrOrNullB r.parentBuildingTypes = true
  ∧ isStrOrNullB r.buildingTypes = true
  ∧ isStrOrNullB r.parentStructures = true
  ∧ isStrOrNullB r.structures = true
  ∧ isStrOrNullB r.prefectures = true
  ∧ isStrB r.areas = true
  ∧ isStrB r.location = true
  ∧ isStrOrNullB r.architectDetails = true
  ∧ isNumOrNullB r.lat = true
  ∧ isNumOrNullB r.lng = true
  ∧ isStrB r.created_at = true
  ∧ isStrB r.updated_at = true

instance (r : RawRow) : Decidable (wellTypedRow r) :=
  inferInstanceAs (Decidable (_ ∧ _))

/-! ## Filter compiler

`searchBuildings` chains clauses onto the supabase query builder; each
clause is modelled by the SQL condition it compiles to, evaluated on a raw
row (an SQL NULL never satisfies a comparison). The mock path applies a
pure predicate over normalized Buildings; that module (`utils/search.ts`)
is not part of the sources, so `localPredicate` is modelled from the
specification. -/

/-- Whether `f` accepts some suffix of the list (the list itself, any
tail, or the empty suffix): the search a `%` wildcard performs. -/
def suffixAny (f : List Char → Bool) : List Char → Bool
  | [] => f []
  | c :: s => f (c :: s) || suffixAny f s

/-- SQL `LIKE` pattern matching: `%` matches any (possibly empty)
character sequence, `_` matches exactly one character, any other pattern
character matches itself. The escape character `\` is not modelled. -/
def likeMatch : List Char → List Char → Bool
  | [], s => s.isEmpty
  | p :: ps, s =>
    if p = '%' then suffixAny (likeMatch ps) s
    else
      match s with
      | [] => false
      | c :: ss => (if p = '_' then true else decide (p = c)) && likeMatch ps ss

/-- `col ILIKE '%q%'` on a possibly-NULL column: the interpolated
pattern `'%' ++ q ++ '%'` matched with full `%`/`_` wildcard semantics,
case-insensitively (both sides ASCII-lowered); an SQL NULL never
matches. -/
def ilikeJ (v : JVal) (q : String) : Bool :=
  match v with
  | JVal.str s => likeMatch ('%' :: q.data.map charLower ++ ['%']) (s.data.map charLower)
  | _ => false

/-- `col IN (set)` on a possibly-NULL column. -/
def inJ (v : JVal) (set : List String) : Bool :=
  match v with
  | JVal.str s => set.contains s
  | _ => false

/-- `col IS NOT NULL`. -/
def notNullJ (v : JVal) : Bool :=
  match v with
  | JVal.null => false
  | JVal.undef => false
  | _ => true

/-- `lo <= col AND col <= hi` on a possibly-NULL numeric column. -/
def betweenJ (v : JVal) (lo hi : ℚ) : Bool :=
  match v with
  | JVal.num x => decide (lo ≤ x) && decide (x ≤ hi)
  | _ => false

/-- The text-search clause of `searchBuildings`: active when the trimmed
query is truthy, an `or` of three `ilike` patterns interpolating the
untrimmed query. -/
def remoteQueryClause (f : SearchFilters) (r : RawRow) : Bool :=
  if jsTrim f.query ≠ "" then
    ilikeJ r.title f.query || ilikeJ r.titleEn f.query || ilikeJ r.location f.query
  else true

/-- The prefecture clause: `.in('prefectures', filters.prefectures)`. -/
def remotePrefClause (f : SearchFilters) (r : RawRow) : Bool :=
  if f.prefectures ≠ [] then inJ r.prefectures f.prefectures else true

/-- The photo clause: `.not('thumbnailUrl', 'is', null)`. -/
def remotePhotoClause (f : SearchFilters) (r : RawRow) : Bool :=
  if f.hasPhotos then notNullJ r.thumbnailUrl else true

/-- The video clause: `.not('youtubeUrl', 'is', null)`. -/
def remoteVideoClause (f : SearchFilters) (r : RawRow) : Bool :=
  if f.hasVideos then notNullJ r.youtubeUrl else true

/-- The geographic clause: four `gte`/`lte` bounds forming the
approximate bounding box around `currentLocation`. -/
def remoteGeoClause (f : SearchFilters) (r : RawRow) : Bool :=
  match f.currentLocation with
  | some (la, ln) =>
      betweenJ r.lat (la - f.radius * (9 / 1000)) (la + f.radius * (9 / 1000))
      && betweenJ r.lng (ln - f.radius * (11 / 1000)) (ln + f.radius * (11 / 1000))
  | none => true

/-- The conjunction of the remote clauses `searchBuildings` chains onto
the query builder, evaluated on a raw row. -/
def remoteMatches (f : SearchFilters) (r : RawRow) : Bool :=
  remoteQueryClause f r && remotePrefClause f r && remotePhotoClause f r
    && remoteVideoClause f r && remoteGeoClause f r

/-- Modelled from the spec: free-text clause of the local predicate —
trimmed query matched case-insensitively against title, titleEn and
location (no-op when empty). -/
def localQueryClause (f : SearchFilters) (b : Building) : Bool :=
  if jsTrim f.query ≠ "" then
    containsCI b.title (jsTrim f.query) || containsCI b.titleEn (jsTrim f.query)
      || containsCI b.location (jsTrim f.query)
  else true

/-- Modelled from the spec: prefecture membership clause of the local
predicate. -/
def localPrefClause (f : SearchFilters) (b : Building) : Bool :=
  if f.prefectures ≠ [] then
    match b.prefectures with
    | some p => f.prefectures.contains p
    | none => false
  else true

/-- Modelled from the spec: `hasPhotos` requires a non-null/non-empty
thumbnail reference (never null after normalization). -/
def localPhotoClause (f : SearchFilters) (b : Building) : Bool :=
  if f.hasPhotos then b.thumbnailUrl ≠ "" else true

/-- Modelled from the spec: `hasVideos` requires a non-null/non-empty
video reference. -/
def localVideoClause (f : SearchFilters) (b : Building) : Bool :=
  if f.hasVideos then b.youtubeUrl ≠ "" else true

/-- Modelled from the spec: the same approximate bounding box on the
normalized coordinates. -/
def localGeoClause (f : SearchFilters) (b : Building) : Bool :=
  match f.currentLocation with
  | some (la, ln) =>
      (decide (la - f.radius * (9 / 1000) ≤ b.lat) && decide (b.lat ≤ la + f.radius * (9 / 1000)))
      && (decide (ln - f.radius * (11 / 1000) ≤ b.lng) && decide (b.lng ≤ ln + f.radius * (11 / 1000)))
  | none => true

/-- Modelled from the spec: the in-memory predicate of the Filter
Compiler (the `searchBuildings` function of `utils/search.ts`, whose
source is not in the repository snapshot), section 4.2 of the
specification; the clauses combine conjunctively and unset filter fields
impose no constraint. -/
def localPredicate (f : SearchFilters) (b : Building) : Bool :=
  localQueryClause f b && localPrefClause f b && localPhotoClause f b
    && localVideoClause f b && localGeoClause f b

/-- Ids of the rows surviving the remote-clause path. -/
def remoteIdList (f : SearchFilters) (rows : List RawRow) : List JVal :=
  (rows.filter (remoteMatches f)).map (fun r => r.building_id)

/-- Ids of the rows surviving the local-predicate path: normalize every
row, then filter with the in-memory predicate. -/
def localIdList (currentYear : Int) (nowIso : String) (f : SearchFilters)
    (rows : List RawRow) : List JVal :=
  (((rows.filterMap (fun r => (transformBuilding currentYear nowIso r).toOption)).filter
      (localPredicate f)).map (fun b => JVal.num (b.id : ℚ)))

/-! ## Remote data gateway -/

/-- Lexicographic order on character lists by code point (the text
ordering the database applies to `completionYears`). -/
def charListLe : List Char → List Char → Bool
  | [], _ => true
  | _ :: _, [] => false
  | a :: as, b :: bs => if a = b then charListLe as bs else decide (a < b)

/-- Comparison key for `ORDER BY completionYears ASC`: strings compare
lexicographically, NULLs sort last. -/
def yearLeB (a b : JVal) : Bool :=
  match a, b with
  | JVal.str s, JVal.str t => charListLe s.data t.data
  | JVal.str _, _ => true
  | _, JVal.str _ => false
  | _, _ => true

/-- The row order `ORDER BY completionYears ASC` produces. -/
def YearLe (a b : RawRow) : Prop :=
  yearLeB a.completionYears b.completionYears = true

instance : DecidableRel YearLe := fun a b =>
  inferInstanceAs (Decidable (yearLeB a.completionYears b.completionYears = true))

/-- The inclusive slice `.range(start, fin)` of the ordered rows. -/
def rangeSlice (l : List RawRow) (start fin : Nat) : List RawRow :=
  (l.drop start).take (fin + 1 - start)

/-- `SupabaseApiClient.getBuildings(page, limit)` on a dataset: offset
`(page-1)*limit`, inclusive range end `start+limit-1`, rows ordered by
ascending `completionYears`, each row normalized. The `select` call does
not request a count, so the client returns `count: null` and
`total = count || 0` is always 0. -/
def getBuildings (currentYear : Int) (nowIso : String) (page limit : Nat)
    (rows : List RawRow) : List Building × Nat :=
  let start := (page - 1) * limit
  let fin := start + limit - 1
  let sorted := List.insertionSort YearLe rows
  let pageRows := rangeSlice sorted start fin
  let count : Option Nat := none
  (pageRows.filterMap (fun r => (transformBuilding currentYear nowIso r).toOption),
    count.getD 0)

/-- `SupabaseApiClient.searchBuildings(filters)` on a backend state: a
transport error becomes a thrown `SupabaseApiError(500, ...)`; otherwise
the clause-filtered rows ordered by `completionYears`, with the exact
count of matching rows. -/
def searchBuildings (currentYear : Int) (nowIso : String) (f : SearchFilters)
    (backend : Except String (List RawRow)) : Except String (List Building × Nat) :=
  match backend with
  | Except.error msg => Except.error ("SupabaseApiError 500: " ++ msg)
  | Except.ok rows =>
    let matching := rows.filter (remoteMatches f)
    Except.ok
      ((List.insertionSort YearLe matching).filterMap
          (fun r => (transformBuilding currentYear nowIso r).toOption),
        matching.length)

/-- The filters `getNearbyBuildings` passes to `searchBuildings` on its
fallback path: empty query, given radius, `currentLocation` set to the
requested center, everything else unset. -/
def nearbyFallbackFilters (lat lng radius : ℚ) : SearchFilters :=
  { query := ""
    radius := radius
    architects := []
    buildingTypes := []
    prefectures := []
    areas := []
    hasPhotos := false
    hasVideos := false
    currentLocation := some (lat, lng) }

/-- `SupabaseApiClient.getNearbyBuildings(lat, lng, radius)`: try the
`nearby_buildings` remote procedure; on any procedure error, discard it
and run `searchBuildings` with the bounding-box filters instead (whose
own transport error, if any, propagates). -/
def getNearbyBuildings (currentYear : Int) (nowIso : String) (lat lng radius : ℚ)
    (rpc : Except String (List RawRow)) (backend : Except String (List RawRow)) :
    Except String (List Building) :=
  match rpc with
  | Except.ok rows =>
      Except.ok (rows.filterMap (fun r => (transformBuilding currentYear nowIso r).toOption))
  | Except.error _ =>
      (searchBuildings currentYear nowIso (nearbyFallbackFilters lat lng radius) backend).map
        (fun res => res.1)

/-! ## Suggestion helper -/

/-- JavaScript `Set.add` followed by `Array.from`: keep insertion order,
skip values already present. -/
def addIfNew (l : List String) (s : String) : List String :=
  if l.contains s then l else l ++ [s]

/-- The collection loop of `getSearchSuggestions`: for each fetched row,
add `title` when it contains the query case-insensitively, then `titleEn`
likewise (skipped via optional chaining when NULL). -/
def collectSuggestions (q : String) : List RawRow → List String → List String
  | [], acc => acc
  | r :: rs, acc =>
    let acc1 := match r.title with
      | JVal.str t => if containsCI t q then addIfNew acc t else acc
      | _ => acc
    let acc2 := match r.titleEn with
      | JVal.str t => if containsCI t q then addIfNew acc1 t else acc1
      | _ => acc1
    collectSuggestions q rs acc2

/-- `SupabaseApiClient.getSearchSuggestions(query)`: on backend error the
empty list; otherwise at most 10 rows matching the title/titleEn `or`
clause are fetched and folded into a deduplicated suggestion list. -/
def getSearchSuggestions (q : String) (backend : Except String (List RawRow)) : List String :=
  match backend with
  | Except.error _ => []
  | Except.ok rows =>
    let fetched := (rows.filter (fun r => ilikeJ r.title q || ilikeJ r.titleEn q)).take 10
    collectSuggestions q fetched []

/-! ## Availability toggle (`useSupabaseToggle`) -/

/-- `apiStatus` of the toggle hook. -/
inductive ApiStatus where
  | checking : ApiStatus
  | available : ApiStatus
  | unavailable : ApiStatus
deriving DecidableEq

/-- The hook state: the latched `useApi` flag and the probe status. -/
structure ToggleState where
  useApi : Bool
  apiStatus : ApiStatus
deriving DecidableEq

/-- Initial hook state: `useApi` from the `VITE_USE_SUPABASE` flag,
status `checking`. -/
def initToggle (flag : Bool) : ToggleState :=
  { useApi := flag, apiStatus := ApiStatus.checking }

/-- `SupabaseApiClient.healthCheck` seen as a probe outcome: a backend
error becomes a thrown transport error. -/
def healthCheck (backend : Except String (List RawRow)) : Except String Unit :=
  match backend with
  | Except.error _ => Except.error "Database connection failed"
  | Except.ok _ => Except.ok ()

/-- One run of the `checkApiStatus` effect: with `useApi` off, go
directly to `unavailable` without probing; otherwise probe `healthCheck`
and either mark `available` or latch `useApi` off and mark `unavailable`.
The second component records whether a probe was issued. -/
def checkApiStatus (s : ToggleState) (health : Except String Unit) : ToggleState × Bool :=
  if s.useApi = false then ({ s with apiStatus := ApiStatus.unavailable }, false)
  else
    match health with
    | Except.ok _ => ({ s with apiStatus := ApiStatus.available }, true)
    | Except.error _ => ({ useApi := false, apiStatus := ApiStatus.unavailable }, true)

/-! ## Slug helpers (`App.tsx`) -/

/-- Characters kept by the slug regex replace
`[^a-z0-9\s-] -> ''` (applied after lower-casing). -/
def keepChar (c : Char) : Bool :=
  ('a' ≤ c && c ≤ 'z') || ('0' ≤ c && c ≤ '9') || jsSpace c || c = '-'

/-- Collapse every maximal run of characters satisfying `p` into a single
`rep`: the effect of a global regex replace of `X+` by one character. -/
def collapseRuns (p : Char → Bool) (rep : Char) : List Char → List Char
  | [] => []
  | c :: cs =>
    if p c then rep :: collapseRuns p rep (cs.dropWhile p)
    else c :: collapseRuns p rep cs
termination_by l => l.length
decreasing_by
  · exact Nat.lt_succ_of_le (List.dropWhile_sublist p).length_le
  · exact Nat.lt_succ_of_le (Nat.le_refl _)

/-- The title-processing chain of `generateSlug`: lower-case, strip
characters outside `[a-z0-9\s-]`, turn whitespace runs into `-`, collapse
`-` runs, trim, and truncate to 50 characters. -/
def slugify (t : String) : String :=
  let s1 := t.data.map charLower
  let s2 := s1.filter keepChar
  let s3 := collapseRuns jsSpace '-' s2
  let s4 := collapseRuns (fun c => c = '-') '-' s3
  let s5 := jsTrimList s4
  String.mk (s5.take 50)

/-- `generateSlug(building)`: the numeric id, a dash, then the processed
title (`titleEn || title`). -/
def generateSlug (b : Building) : String :=
  intToString b.id ++ "-" ++ slugify (if b.titleEn = "" then b.title else b.titleEn)

/-- `extractIdFromSlug(slug)`: `parseInt` of everything before the first
dash (`slug.split('-')[0]`); `none` models NaN. -/
def extractIdFromSlug (slug : String) : Option Int :=
  parseIntJS (String.mk (slug.data.takeWhile (fun c => c != '-')))

/-! ## Concrete fixtures used by witnesses and counterexamples -/

/-- A schema row with every nullable column NULL and a string year. -/
def rowA : RawRow :=
  { building_id := JVal.num 1
    uid := JVal.str "u1"
    title := JVal.str "ta"
    titleEn := JVal.null
    thumbnailUrl := JVal.null
    youtubeUrl := JVal.null
    completionYears := JVal.str "2010"
    parentBuildingTypes := JVal.null
    buildingTypes := JVal.null
    parentStructures := JVal.null
    structures := JVal.null
    prefectures := JVal.null
    areas := JVal.str "a"
    location := JVal.str "la"
    architectDetails := JVal.null
    lat := JVal.null
    lng := JVal.null
    created_at := JVal.str "c"
    updated_at := JVal.str "c"
    building_architects := none
    photos := none }

/-- Second row of the pagination fixture (earliest year). -/
def rowB : RawRow := { rowA with building_id := JVal.num 2, completionYears := JVal.str "1990" }

/-- Third row of the pagination fixture (middle year). -/
def rowC : RawRow := { rowA with building_id := JVal.num 3, completionYears := JVal.str "2000" }

/-- A row whose `thumbnailUrl` is the empty string (not NULL). -/
def rowEmptyThumb : RawRow := { rowA with thumbnailUrl := JVal.str "" }

/-- A row with non-empty media references and numeric coordinates. -/
def rowFull : RawRow :=
  { rowA with
    thumbnailUrl := JVal.str "tn"
    youtubeUrl := JVal.str "yt"
    lat := JVal.num 35
    lng := JVal.num 139 }

/-- A row with every defaultable column absent. -/
def rowDefaults : RawRow := { rowA with completionYears := JVal.null }

/-- A photos-relation row. -/
def photoRow1 : PhotoRow := { id := 1, url := "p1" }

/-- A row that carries a non-empty photos relation. -/
def rowWithPhotos : RawRow := { rowA with photos := some [photoRow1] }

/-- Filters with every field unset. -/
def filtersNone : SearchFilters :=
  { query := ""
    radius := 5
    architects := []
    buildingTypes := []
    prefectures := []
    areas := []
    hasPhotos := false
    hasVideos := false
    currentLocation := none }

/-- Filters asking only for buildings with photos. -/
def filtersPhoto : SearchFilters := { filtersNone with hasPhotos := true }

/-- One suggestion-fixture row: title and titleEn both match `a`. -/
def suggRow (t te : String) : RawRow :=
  { rowA with title := JVal.str t, titleEn := JVal.str te }

/-- Six rows giving twelve distinct matching titles. -/
def rowsSugg : List RawRow :=
  [suggRow "a1" "ae1", suggRow "a2" "ae2", suggRow "a3" "ae3",
    suggRow "a4" "ae4", suggRow "a5" "ae5", suggRow "a6" "ae6"]

/-- A healthy suggestion backend. -/
def suggBackend : Except String (List RawRow) := Except.ok rowsSugg

/-- A failing backend. -/
def backendDown : Except String (List RawRow) := Except.error "db down"

/-- A failing geospatial procedure result. -/
def rpcDown : Except String (List RawRow) := Except.error "rpc down"

/-- An empty but healthy backend. -/
def backendEmpty : Except String (List RawRow) := Except.ok []

/-- A concrete Building for the slug round trip. -/
def bldSlug : Building :=
  { id := 42
    uid := "u42"
    title := "Museum Annex 2"
    titleEn := "Museum  Annex-2!"
    thumbnailUrl := ""
    youtubeUrl := ""
    completionYears := 2001
    parentBuildingTypes := []
    buildingTypes := []
    parentStructures := []
    structures := []
    prefectures := none
    areas := "a"
    location := "l"
    architectDetails := ""
    lat := 0
    lng := 0
    architects := []
    photos := []
    likes := 0
    created_at := "c"
    updated_at := "c" }

/-- A failed health probe. -/
def probeFail : Except String Unit := Except.error "probe failed"

/-! ## Basic lemmas -/

instance {ε α : Type} [DecidableEq ε] [DecidableEq α] : DecidableEq (Except ε α) := fun x y =>
  match x, y with
  | Except.error a, Except.error b => decidable_of_iff (a = b) (by simp)
  | Except.error _, Except.ok _ => isFalse (fun h => Except.noConfusion h)
  | Except.ok _, Except.error _ => isFalse (fun h => Except.noConfusion h)
  | Except.ok a, Except.ok b => decidable_of_iff (a = b) (by simp)

theorem take_length_le {α : Type} (n : Nat) (l : List α) : (l.take n).length ≤ n := by
  induction n generalizing l with
  | zero => simp
  | succ k ih =>
    cases l with
    | nil => simp
    | cons a as =>
      rw [List.take_succ_cons, List.length_cons]
      exact Nat.succ_le_succ (ih as)

theorem exbind_ok {α β : Type} (a : α) (f : α → Except String β) :
    ((Except.ok a : Except String α) >>= f) = f a := rfl

theorem exbind_eq_ok {α β : Type} {x : Except String α} {f : α → Except String β} {b : β} :
    (x >>= f) = Except.ok b ↔ ∃ a, x = Except.ok a ∧ f a = Except.ok b := by
  cases x <;> simp [Bind.bind, Except.bind]

theorem expure_eq {α : Type} (a : α) : (pure a : Except String α) = Except.ok a := rfl

theorem strOfJ_str (s : String) : strOfJ (JVal.str s) = s := rfl

theorem isStrB_shape {v : JVal} (h : isStrB v = true) : v = JVal.str (strOfJ v) := by
  cases v <;> first | rfl | simp [isStrB] at h

theorem isStrB_weaken {v : JVal} (h : isStrB v = true) : isStrOrNullB v = true := by
  cases v <;> simp [isStrB, isStrOrNullB] at h ⊢

theorem isStrOrNullB_shape {v : JVal} (h : isStrOrNullB v = true) :
    v = JVal.null ∨ v = JVal.str (strOfJ v) := by
  cases v <;> first
    | exact Or.inl rfl
    | exact Or.inr rfl
    | simp [isStrOrNullB] at h

theorem isStrB_ex {v : JVal} (h : isStrB v = true) : ∃ s, v = JVal.str s :=
  ⟨strOfJ v, isStrB_shape h⟩

theorem isStrOrNullB_ex {v : JVal} (h : isStrOrNullB v = true) :
    v = JVal.null ∨ ∃ s, v = JVal.str s := by
  rcases isStrOrNullB_shape h with h' | h'
  · exact Or.inl h'
  · exact Or.inr ⟨strOfJ v, h'⟩

theorem isIntNumB_shape {v : JVal} (h : isIntNumB v = true) :
    ∃ q : ℚ, v = JVal.num q ∧ q.den = 1 := by
  cases v <;> simp [isIntNumB] at h ⊢
  exact h

theorem isNumB_shape {v : JVal} (h : isNumB v = true) : ∃ q : ℚ, v = JVal.num q := by
  cases v <;> simp [isNumB] at h ⊢

theorem parseCommaSeparated_ok {v : JVal} (h : isStrOrNullB v = true) :
    parseCommaSeparated v = Except.ok (pcsTotal v) := by
  rcases isStrOrNullB_shape h with h' | h' <;> rw [h']
  · rfl
  · by_cases hs : strOfJ v = ""
    · rw [hs]; rfl
    · simp [parseCommaSeparated, truthy, hs, pcsTotal]

theorem asStr_ok {v : JVal} (h : isStrB v = true) : asStr v = Except.ok () := by
  rw [isStrB_shape h]; rfl

theorem asIntNum_ok {v : JVal} (h : isIntNumB v = true) : asIntNum v = Except.ok () := by
  obtain ⟨q, hv, hq⟩ := isIntNumB_shape h
  rw [hv]; simp [asIntNum, hq]

theorem asStrOrNull_ok {v : JVal} (h : isStrOrNullB v = true) :
    asStrOrNull v = Except.ok () := by
  rcases isStrOrNullB_shape h with h' | h' <;> rw [h'] <;> rfl

theorem strIfTruthy_ok {v : JVal} (h : isStrOrNullB v = true) :
    strIfTruthy v = Except.ok () := by
  rcases isStrOrNullB_shape h with h' | h' <;> rw [h']
  · rfl
  · by_cases hs : strOfJ v = ""
    · rw [hs]; rfl
    · simp [strIfTruthy, truthy, hs]

/-- On a schema row every check of the normalizer passes and the result
is exactly `buildingOfRow`. -/
theorem transform_wellTyped {r : RawRow} (y : Int) (n : String) (h : wellTypedRow r) :
    transformBuilding y n r = Except.ok (buildingOfRow y n r) := by
  obtain ⟨h1, h2, h3, h4, h5, h6, h7, h8, h9, h10, h11, h12, h13, h14, h15, h16, h17, h18, h19⟩ := h
  rw [transformBuilding]
  rw [parseCommaSeparated_ok h8, exbind_ok, parseCommaSeparated_ok h9, exbind_ok,
    parseCommaSeparated_ok h10, exbind_ok, parseCommaSeparated_ok h11, exbind_ok,
    asIntNum_ok h1, exbind_ok, asStr_ok h2, exbind_ok, asStr_ok h3, exbind_ok,
    strIfTruthy_ok h4, exbind_ok, strIfTruthy_ok h5, exbind_ok, strIfTruthy_ok h6, exbind_ok,
    asStrOrNull_ok h12, exbind_ok, asStr_ok h13, exbind_ok, asStr_ok h14, exbind_ok,
    strIfTruthy_ok h15, exbind_ok, strIfTruthy_ok (isStrB_weaken h18), exbind_ok,
    strIfTruthy_ok (isStrB_weaken h19), exbind_ok, expure_eq]

/-- Any successful normalization result is `buildingOfRow`. -/
theorem transform_ok_shape {y : Int} {n : String} {r : RawRow} {b : Building}
    (h : transformBuilding y n r = Except.ok b) : b = buildingOfRow y n r := by
  rw [transformBuilding] at h
  simp only [exbind_eq_ok, expure_eq] at h
  obtain ⟨_, _, _, _, _, _, _, _, _, _, _, _, _, _, _, _, _, _, _, _, _, _, _, _, _, _, _, _, _,
    _, _, _, hb⟩ := h
  exact (Except.ok.injEq _ _).mp hb.symm ▸ rfl

theorem containsCI_empty {q : String} (h : q ≠ "") : containsCI "" q = false := by
  obtain ⟨l⟩ := q
  cases l with
  | nil => exact absurd rfl h
  | cons c cs => rfl

theorem buildingOfRow_title (y : Int) (n : String) (r : RawRow) :
    (buildingOfRow y n r).title = strOfJ r.title := rfl

theorem buildingOfRow_location (y : Int) (n : String) (r : RawRow) :
    (buildingOfRow y n r).location = strOfJ r.location := rfl

theorem toNat_ofNat_small {n : Nat} (h : n < 55296) : (Char.ofNat n).toNat = n := by
  rw [Char.ofNat, dif_pos (Or.inl (by omega))]
  simp [Char.ofNatAux, Char.toNat, UInt32.toNat, BitVec.toNat_ofNatLt]

theorem charLower_shape (c : Char) :
    charLower c = c
    ∨ ((charLower c).toNat = c.toNat + 32 ∧ 65 ≤ c.toNat ∧ c.toNat ≤ 90) := by
  rw [charLower]
  by_cases hr : ('A' ≤ c && c ≤ 'Z') = true
  · right
    rw [if_pos hr]
    rcases Bool.and_eq_true_iff.mp hr with ⟨h1, h2⟩
    have ha : 65 ≤ c.toNat := of_decide_eq_true h1
    have hz : c.toNat ≤ 90 := of_decide_eq_true h2
    exact ⟨toNat_ofNat_small (by omega), ha, hz⟩
  · left
    rw [if_neg hr]

theorem charLower_nonmeta {c : Char} (h1 : c ≠ '%') (h2 : c ≠ '_') :
    charLower c ≠ '%' ∧ charLower c ≠ '_' := by
  rcases charLower_shape c with h | ⟨h, ha, hz⟩
  · rw [h]; exact ⟨h1, h2⟩
  · constructor
    · intro he
      rw [he] at h
      have : ('%').toNat = 37 := by decide
      omega
    · intro he
      rw [he] at h
      have : ('_').toNat = 95 := by decide
      omega

theorem suffixAny_of_nil {f : List Char → Bool} (h : f [] = true) :
    ∀ s, suffixAny f s = true := by
  intro s
  induction s with
  | nil => exact h
  | cons c ss ih => simp [suffixAny, ih]

theorem isPrefixList_nil (q : List Char) : isPrefixList q [] = q.isEmpty := by
  cases q <;> rfl

/-- A wildcard-free pattern followed by a single trailing `%` matches a
string exactly when the pattern is a literal prefix of it. -/
theorem likeMatch_append_pct {q : List Char} (hq : ∀ c ∈ q, c ≠ '%' ∧ c ≠ '_') :
    ∀ s, likeMatch (q ++ ['%']) s = isPrefixList q s := by
  induction q with
  | nil =>
    intro s
    show likeMatch ['%'] s = true
    rw [likeMatch.eq_def]
    dsimp only
    rw [if_pos rfl]
    exact suffixAny_of_nil rfl s
  | cons a q' ih =>
    intro s
    have ha := hq a (List.mem_cons_self a q')
    have ih' := ih (fun c hc => hq c (List.mem_cons_of_mem a hc))
    show likeMatch (a :: (q' ++ ['%'])) s = isPrefixList (a :: q') s
    rw [likeMatch.eq_def]
    dsimp only
    rw [if_neg ha.1]
    cases s with
    | nil => rfl
    | cons c ss =>
      dsimp only
      rw [if_neg ha.2, ih' ss]
      rfl

/-- The interpolated pattern `%q%` for a wildcard-free `q` matches a
string exactly when `q` occurs in it as a contiguous segment. -/
theorem likeMatch_pct_wrap {q : List Char} (hq : ∀ c ∈ q, c ≠ '%' ∧ c ≠ '_') :
    ∀ s, likeMatch ('%' :: (q ++ ['%'])) s = containsSeg q s := by
  intro s
  induction s with
  | nil =>
    show suffixAny (likeMatch (q ++ ['%'])) [] = containsSeg q []
    rw [suffixAny, likeMatch_append_pct hq, isPrefixList_nil]
    rfl
  | cons c ss ihs =>
    show suffixAny (likeMatch (q ++ ['%'])) (c :: ss) = containsSeg q (c :: ss)
    rw [suffixAny]
    have hsuf : suffixAny (likeMatch (q ++ ['%'])) ss = containsSeg q ss := ihs
    rw [hsuf, likeMatch_append_pct hq]
    rfl

/-- For a query free of the LIKE wildcards, the remote `ILIKE '%q%'`
test on a string column coincides with the local case-insensitive
substring test. -/
theorem ilikeJ_eq_containsCI {q : String} (hq : ∀ c ∈ q.data, c ≠ '%' ∧ c ≠ '_')
    (s : String) : ilikeJ (JVal.str s) q = containsCI s q := by
  have hql : ∀ c ∈ q.data.map charLower, c ≠ '%' ∧ c ≠ '_' := by
    intro c hc
    obtain ⟨c0, hc0, rfl⟩ := List.mem_map.mp hc
    exact charLower_nonmeta (hq c0 hc0).1 (hq c0 hc0).2
  show likeMatch ('%' :: (q.data.map charLower ++ ['%'])) (s.data.map charLower)
      = containsSeg (q.data.map charLower) (s.data.map charLower)
  exact likeMatch_pct_wrap hql (s.data.map charLower)

theorem or_mid_false_dup (x z : Bool) : (x || false || z) = (x || x || z) := by
  cases x <;> rfl

theorem queryClause_equiv (y : Int) (n : String) (f : SearchFilters) (r : RawRow)
    (hq : jsTrim f.query = f.query)
    (hmeta : ∀ c ∈ f.query.data, c ≠ '%' ∧ c ≠ '_')
    (h3 : isStrB r.title = true) (h4 : isStrOrNullB r.titleEn = true)
    (h14 : isStrB r.location = true) :
    remoteQueryClause f r = localQueryClause f (buildingOfRow y n r) := by
  obtain ⟨t, ht⟩ := isStrB_ex h3
  obtain ⟨lo, hloc⟩ := isStrB_ex h14
  have htt : (buildingOfRow y n r).title = t := by rw [buildingOfRow_title, ht]; rfl
  have hll : (buildingOfRow y n r).location = lo := by rw [buildingOfRow_location, hloc]; rfl
  have hten : (buildingOfRow y n r).titleEn = jsOrElse r.titleEn t := by
    show jsOrElse r.titleEn (strOfJ r.title) = jsOrElse r.titleEn t
    rw [ht]; rfl
  rw [remoteQueryClause, localQueryClause, hq, htt, hll, hten, ht, hloc]
  by_cases hq0 : f.query = ""
  · simp [hq0]
  · rw [if_pos hq0, if_pos hq0]
    rw [ilikeJ_eq_containsCI hmeta t, ilikeJ_eq_containsCI hmeta lo]
    rcases isStrOrNullB_ex h4 with hte | ⟨e, hte⟩
    · rw [hte]
      exact or_mid_false_dup (containsCI t f.query) (containsCI lo f.query)
    · rw [hte]
      by_cases he : e = ""
      · rw [he]
        have hmid : ilikeJ (JVal.str "") f.query = false := by
          rw [ilikeJ_eq_containsCI hmeta]
          exact containsCI_empty hq0
        rw [hmid]
        exact or_mid_false_dup (containsCI t f.query) (containsCI lo f.query)
      · have hmid : jsOrElse (JVal.str e) t = e := by simp [jsOrElse, truthy, he, strOfJ_str]
        rw [hmid, ilikeJ_eq_containsCI hmeta e]

theorem prefClause_equiv (y : Int) (n : String) (f : SearchFilters) (r : RawRow)
    (h12 : isStrOrNullB r.prefectures = true) :
    remotePrefClause f r = localPrefClause f (buildingOfRow y n r) := by
  have hpre : (buildingOfRow y n r).prefectures = optStrOfJ r.prefectures := rfl
  rw [remotePrefClause, localPrefClause, hpre]
  rcases isStrOrNullB_ex h12 with hpr | ⟨p, hpr⟩ <;> rw [hpr] <;> simp [inJ, optStrOfJ]

theorem photoClause_equiv (y : Int) (n : String) (f : SearchFilters) (r : RawRow)
    (h5 : isStrOrNullB r.thumbnailUrl = true) (hp : r.thumbnailUrl ≠ JVal.str "") :
    remotePhotoClause f r = localPhotoClause f (buildingOfRow y n r) := by
  have hth : (buildingOfRow y n r).thumbnailUrl = jsOrElse r.thumbnailUrl "" := rfl
  rw [remotePhotoClause, localPhotoClause, hth]
  rcases isStrOrNullB_ex h5 with h' | ⟨s, h'⟩
  · rw [h']; rfl
  · rw [h'] at hp ⊢
    have hne : s ≠ "" := fun he => hp (by rw [he])
    have hor : jsOrElse (JVal.str s) "" = s := by simp [jsOrElse, truthy, hne, strOfJ_str]
    rw [hor]
    simp [notNullJ, hne]

theorem videoClause_equiv (y : Int) (n : String) (f : SearchFilters) (r : RawRow)
    (h6 : isStrOrNullB r.youtubeUrl = true) (hv : r.youtubeUrl ≠ JVal.str "") :
    remoteVideoClause f r = localVideoClause f (buildingOfRow y n r) := by
  have hyt : (buildingOfRow y n r).youtubeUrl = jsOrElse r.youtubeUrl "" := rfl
  rw [remoteVideoClause, localVideoClause, hyt]
  rcases isStrOrNullB_ex h6 with h' | ⟨s, h'⟩
  · rw [h']; rfl
  · rw [h'] at hv ⊢
    have hne : s ≠ "" := fun he => hv (by rw [he])
    have hor : jsOrElse (JVal.str s) "" = s := by simp [jsOrElse, truthy, hne, strOfJ_str]
    rw [hor]
    simp [notNullJ, hne]

theorem geoClause_equiv (y : Int) (n : String) (f : SearchFilters) (r : RawRow)
    (hlat : isNumB r.lat = true) (hlng : isNumB r.lng = true) :
    remoteGeoClause f r = localGeoClause f (buildingOfRow y n r) := by
  obtain ⟨a, ha⟩ := isNumB_shape hlat
  obtain ⟨o, ho⟩ := isNumB_shape hlng
  have hla : (buildingOfRow y n r).lat = parseFloatOr0 r.lat := rfl
  have hln : (buildingOfRow y n r).lng = parseFloatOr0 r.lng := rfl
  rw [remoteGeoClause, localGeoClause, hla, hln, ha, ho]
  cases f.currentLocation with
  | none => rfl
  | some c => rfl

/-- On a schema row without empty-string thumbnail and video values and
with non-NULL coordinates, the remote clauses and the local predicate
(applied to the normalized row) decide alike, provided the query is
already trimmed. -/
theorem matches_equiv (y : Int) (n : String) (f : SearchFilters) (r : RawRow)
    (hw : wellTypedRow r) (hq : jsTrim f.query = f.query)
    (hmeta : ∀ c ∈ f.query.data, c ≠ '%' ∧ c ≠ '_')
    (hp : r.thumbnailUrl ≠ JVal.str "") (hv : r.youtubeUrl ≠ JVal.str "")
    (hlat : isNumB r.lat = true) (hlng : isNumB r.lng = true) :
    remoteMatches f r = localPredicate f (buildingOfRow y n r) := by
  obtain ⟨h1, h2, h3, h4, h5, h6, h7, h8, h9, h10, h11, h12, h13, h14, h15, h16, h17, h18, h19⟩ := hw
  rw [remoteMatches, localPredicate,
    queryClause_equiv y n f r hq hmeta h3 h4 h14,
    prefClause_equiv y n f r h12,
    photoClause_equiv y n f r h5 hp,
    videoClause_equiv y n f r h6 hv,
    geoClause_equiv y n f r hlat hlng]

/-- The row id re-emitted by the local path equals the raw `building_id`. -/
theorem localId_eq (y : Int) (n : String) (r : RawRow) (hw : wellTypedRow r) :
    JVal.num (((buildingOfRow y n r).id : Int) : ℚ) = r.building_id := by
  obtain ⟨h1, _⟩ := hw
  obtain ⟨q, hb, hq⟩ := isIntNumB_shape h1
  rw [hb]
  simp only [buildingOfRow, intOfJ, hb]
  rw [(Rat.den_eq_one_iff q).mp hq]

/-- Under the same side conditions, the remote-clause and local-predicate
paths keep exactly the same ids, in the same order. -/
theorem remote_local_ids (y : Int) (n : String) (f : SearchFilters)
    (hq : jsTrim f.query = f.query)
    (hmeta : ∀ c ∈ f.query.data, c ≠ '%' ∧ c ≠ '_') :
    ∀ rows : List RawRow, (∀ r ∈ rows, wellTypedRow r) →
      (∀ r ∈ rows, r.thumbnailUrl ≠ JVal.str "") →
      (∀ r ∈ rows, r.youtubeUrl ≠ JVal.str "") →
      (∀ r ∈ rows, isNumB r.lat = true) → (∀ r ∈ rows, isNumB r.lng = true) →
      remoteIdList f rows = localIdList y n f rows := by
  intro rows
  induction rows with
  | nil => intro _ _ _ _ _; rfl
  | cons r rs ih =>
    intro hw hp hv hlat hlng
    have hwr := hw r (List.mem_cons_self r rs)
    have ihr := ih (fun x hx => hw x (List.mem_cons_of_mem r hx))
      (fun x hx => hp x (List.mem_cons_of_mem r hx))
      (fun x hx => hv x (List.mem_cons_of_mem r hx))
      (fun x hx => hlat x (List.mem_cons_of_mem r hx))
      (fun x hx => hlng x (List.mem_cons_of_mem r hx))
    unfold remoteIdList localIdList at ihr ⊢
    rw [List.filterMap_cons, transform_wellTyped y n hwr]
    simp only [Except.toOption]
    rw [List.filter_cons, List.filter_cons]
    rw [← matches_equiv y n f r hwr hq hmeta (hp r (List.mem_cons_self r rs))
      (hv r (List.mem_cons_self r rs)) (hlat r (List.mem_cons_self r rs))
      (hlng r (List.mem_cons_self r rs))]
    cases hm : remoteMatches f r
    · simpa using ihr
    · simp only [if_pos, List.map_cons]
      rw [localId_eq y n r hwr]
      exact congrArg _ ihr

/-! ## Ordering facts for `ORDER BY completionYears` -/

theorem charListLe_total : ∀ l m : List Char, charListLe l m = true ∨ charListLe m l = true := by
  intro l
  induction l with
  | nil => intro m; exact Or.inl rfl
  | cons a as ih =>
    intro m
    cases m with
    | nil => exact Or.inr rfl
    | cons b bs =>
      by_cases hab : a = b
      · subst hab
        rcases ih bs with h | h
        · exact Or.inl (by simp [charListLe, h])
        · exact Or.inr (by simp [charListLe, h])
      · rcases lt_or_gt_of_ne hab with h | h
        · exact Or.inl (by simp [charListLe, hab, h.le, h])
        · exact Or.inr (by simp [charListLe, Ne.symm hab, h])

theorem charListLe_trans : ∀ l m k : List Char,
    charListLe l m = true → charListLe m k = true → charListLe l k = true := by
  intro l
  induction l with
  | nil => intro m k _ _; rfl
  | cons a as ih =>
    intro m k h1 h2
    cases m with
    | nil => simp [charListLe] at h1
    | cons b bs =>
      cases k with
      | nil => simp [charListLe] at h2
      | cons c cs =>
        by_cases hab : a = b <;> by_cases hbc : b = c
        · subst hab; subst hbc
          simp only [charListLe, if_pos rfl] at h1 h2 ⊢
          exact ih bs cs h1 h2
        · subst hab
          simp only [charListLe, if_neg hbc] at h2
          have hlt : a < c := of_decide_eq_true h2
          simp [charListLe, ne_of_lt hlt, hlt]
        · subst hbc
          simp only [charListLe, if_neg hab] at h1 ⊢
          exact h1
        · simp only [charListLe, if_neg hab, if_neg hbc] at h1 h2
          have hlt : a < c := lt_trans (of_decide_eq_true h1) (of_decide_eq_true h2)
          simp [charListLe, ne_of_lt hlt, hlt]

instance : IsTotal RawRow YearLe := by
  constructor
  intro a b
  unfold YearLe yearLeB
  rcases ha : a.completionYears <;> rcases hb : b.completionYears <;> simp
  exact charListLe_total _ _

instance : IsTrans RawRow YearLe := by
  constructor
  intro a b c hab hbc
  unfold YearLe yearLeB at hab hbc ⊢
  rcases ha : a.completionYears <;> rcases hb : b.completionYears <;>
    rcases hc : c.completionYears <;>
    simp_all
  exact charListLe_trans _ _ _ hab hbc

/-! ## Suggestion-helper lemmas -/

theorem addIfNew_length (l : List String) (s : String) :
    (addIfNew l s).length ≤ l.length + 1 := by
  rw [addIfNew]
  by_cases hc : l.contains s = true
  · rw [if_pos hc]; exact Nat.le_succ _
  · rw [if_neg hc]; simp

theorem addIfNew_nodup {l : List String} (s : String) (h : l.Nodup) :
    (addIfNew l s).Nodup := by
  rw [addIfNew]
  by_cases hc : l.contains s = true
  · rw [if_pos hc]; exact h
  · rw [if_neg hc]
    rw [List.nodup_append]
    refine ⟨h, List.nodup_singleton s, ?_⟩
    intro x hx hs
    rcases List.mem_singleton.mp hs with rfl
    exact hc (List.elem_eq_true_of_mem hx)

theorem addStep_length (q : String) (v : JVal) (acc : List String) :
    (match v with
      | JVal.str t => if containsCI t q then addIfNew acc t else acc
      | _ => acc).length ≤ acc.length + 1 := by
  rcases v with _ | _ | t | _ | _
  · exact Nat.le_succ _
  · exact Nat.le_succ _
  · by_cases hc : containsCI t q = true
    · simp only [if_pos hc]; exact addIfNew_length acc t
    · simp only [if_neg hc]; exact Nat.le_succ _
  · exact Nat.le_succ _
  · exact Nat.le_succ _

theorem addStep_nodup (q : String) (v : JVal) {acc : List String} (h : acc.Nodup) :
    (match v with
      | JVal.str t => if containsCI t q then addIfNew acc t else acc
      | _ => acc).Nodup := by
  rcases v with _ | _ | t | _ | _
  · exact h
  · exact h
  · by_cases hc : containsCI t q = true
    · simp only [if_pos hc]; exact addIfNew_nodup t h
    · simp only [if_neg hc]; exact h
  · exact h
  · exact h

theorem collectSuggestions_length (q : String) :
    ∀ (rows : List RawRow) (acc : List String),
      (collectSuggestions q rows acc).length ≤ acc.length + 2 * rows.length := by
  intro rows
  induction rows with
  | nil => intro acc; simp [collectSuggestions]
  | cons r rs ih =>
    intro acc
    rw [collectSuggestions]
    have h1 := addStep_length q r.title acc
    have h2 := addStep_length q r.titleEn (match r.title with
      | JVal.str t => if containsCI t q then addIfNew acc t else acc
      | _ => acc)
    have h3 := ih (match r.titleEn with
      | JVal.str t =>
        if containsCI t q then
          addIfNew (match r.title with
            | JVal.str t2 => if containsCI t2 q then addIfNew acc t2 else acc
            | _ => acc) t
        else
          match r.title with
          | JVal.str t2 => if containsCI t2 q then addIfNew acc t2 else acc
          | _ => acc
      | _ =>
        match r.title with
        | JVal.str t2 => if containsCI t2 q then addIfNew acc t2 else acc
        | _ => acc)
    simp only [List.length_cons]
    omega

theorem collectSuggestions_nodup (q : String) :
    ∀ (rows : List RawRow) (acc : List String), acc.Nodup →
      (collectSuggestions q rows acc).Nodup := by
  intro rows
  induction rows with
  | nil => intro acc h; simpa [collectSuggestions] using h
  | cons r rs ih =>
    intro acc h
    rw [collectSuggestions]
    exact ih _ (addStep_nodup q r.titleEn (addStep_nodup q r.title h))


/-! ## Decimal-digit lemmas for the slug round trip -/

theorem digitsVal_append_one (l : List Char) (c : Char) :
    digitsVal (l ++ [c]) = digitsVal l * 10 + (c.toNat - 48) := by
  rw [digitsVal, List.foldl_append]
  rfl

theorem digit_char_spec {d : Nat} (h : d < 10) :
    (Char.ofNat (48 + d)).isDigit = true ∧ (Char.ofNat (48 + d)).toNat - 48 = d := by
  interval_cases d <;> exact ⟨by decide, by decide⟩

theorem natDigits_ne_nil (n : Nat) : natDigits n ≠ [] := by
  rw [natDigits]
  by_cases h : n < 10 <;> simp [h]

theorem natDigits_all_digit (n : Nat) : ∀ c ∈ natDigits n, c.isDigit = true := by
  induction n using Nat.strong_induction_on with
  | _ n ih =>
    rw [natDigits]
    by_cases h : n < 10
    · simp only [dif_pos h, List.mem_singleton]
      intro c hc
      rw [hc]
      exact (digit_char_spec h).1
    · simp only [dif_neg h]
      intro c hc
      rcases List.mem_append.mp hc with hc | hc
      · exact ih (n / 10) (Nat.div_lt_self (by omega) (by omega)) c hc
      · rcases List.mem_singleton.mp hc with rfl
        exact (digit_char_spec (Nat.mod_lt n (by omega))).1

theorem digitsVal_natDigits (n : Nat) : digitsVal (natDigits n) = n := by
  induction n using Nat.strong_induction_on with
  | _ n ih =>
    rw [natDigits]
    by_cases h : n < 10
    · rw [dif_pos h]
      have := (digit_char_spec h).2
      simp [digitsVal, this]
    · rw [dif_neg h]
      rw [digitsVal_append_one]
      rw [ih (n / 10) (Nat.div_lt_self (by omega) (by omega))]
      rw [(digit_char_spec (Nat.mod_lt n (by omega))).2]
      omega

theorem isDigit_not_special {c : Char} (h : c.isDigit = true) :
    c ≠ '-' ∧ c ≠ '+' ∧ jsSpace c = false := by
  refine ⟨fun hc => by rw [hc] at h; simp [Char.isDigit] at h,
    fun hc => by rw [hc] at h; simp [Char.isDigit] at h, ?_⟩
  by_contra hs
  simp only [Bool.not_eq_false] at hs
  rw [jsSpace] at hs
  rcases Bool.or_eq_true_iff.mp hs with hs | hs
  rotate_left
  · rcases decide_eq_true_eq.mp hs with rfl
    simp [Char.isDigit] at h
  rcases Bool.or_eq_true_iff.mp hs with hs | hs
  rotate_left
  · rcases decide_eq_true_eq.mp hs with rfl
    simp [Char.isDigit] at h
  rcases Bool.or_eq_true_iff.mp hs with hs | hs
  rotate_left
  · rcases decide_eq_true_eq.mp hs with rfl
    simp [Char.isDigit] at h
  rcases Bool.or_eq_true_iff.mp hs with hs | hs
  rotate_left
  · rcases decide_eq_true_eq.mp hs with rfl
    simp [Char.isDigit] at h
  rcases Bool.or_eq_true_iff.mp hs with hs | hs
  · rcases decide_eq_true_eq.mp hs with rfl
    simp [Char.isDigit] at h
  · rcases decide_eq_true_eq.mp hs with rfl
    simp [Char.isDigit] at h

theorem takeWhile_all_pos {α : Type} {p : α → Bool} {l : List α}
    (h : ∀ a ∈ l, p a = true) : l.takeWhile p = l := by
  have := @List.takeWhile_append_of_pos α p l [] h
  simpa using this

theorem dropWhile_all_neg {α : Type} {p : α → Bool} :
    ∀ {l : List α}, (∀ a ∈ l, p a = false) → l.dropWhile p = l := by
  intro l
  induction l with
  | nil => intro _; rfl
  | cons a as _ =>
    intro h
    have ha : ¬p a = true := by
      rw [h a (List.mem_cons_self a as)]
      simp
    exact List.dropWhile_cons_of_neg ha

theorem parseIntJS_digits (n : Nat) : parseIntJS (String.mk (natDigits n)) = some (n : Int) := by
  have hall := natDigits_all_digit n
  rw [parseIntJS]
  have hdata : (String.mk (natDigits n)).data = natDigits n := rfl
  rw [hdata]
  rw [dropWhile_all_neg (fun c hc => (isDigit_not_special (hall c hc)).2.2)]
  rcases hcons : natDigits n with _ | ⟨c, cs⟩
  · exact absurd hcons (natDigits_ne_nil n)
  · have hc : c.isDigit = true := hall c (by rw [hcons]; exact List.mem_cons_self c cs)
    dsimp only
    rw [if_neg (by simpa using (isDigit_not_special hc).1),
      if_neg (by simpa using (isDigit_not_special hc).2.1)]
    rw [parseDigits]
    rw [← hcons, takeWhile_all_pos hall]
    simp only [natDigits_ne_nil n, if_false, reduceIte]
    rw [digitsVal_natDigits]
    simp

theorem slug_data_split (nid : Nat) (t : String) :
    (natToString nid ++ "-" ++ slugify t).data
      = natDigits nid ++ '-' :: (slugify t).data := by
  obtain ⟨sl⟩ := slugify t
  show ((String.mk (natDigits nid) ++ String.mk ['-']) ++ String.mk sl).data = _
  show (natDigits nid ++ ['-']) ++ sl = _
  rw [List.append_assoc]
  rfl

theorem takeWhile_slug (nid : Nat) (rest : List Char) :
    (natDigits nid ++ '-' :: rest).takeWhile (fun c => c != '-') = natDigits nid := by
  rw [List.takeWhile_append_of_pos (fun a ha => by
    simpa using (isDigit_not_special (natDigits_all_digit nid a ha)).1)]
  rw [List.takeWhile_cons_of_neg (by simp)]
  simp

/-! ## Claims -/

/-- C1 (counterexample): on a row whose `thumbnailUrl` is the empty
string, `hasPhotos` filtering keeps the row remotely (the clause only
checks NOT NULL) but the local predicate drops it, so the two id sets
differ. -/
theorem remote_local_consistency_cex :
    remoteIdList filtersPhoto [rowEmptyThumb] = [JVal.num 1]
    ∧ localIdList 2025 "T" filtersPhoto [rowEmptyThumb] = []
    ∧ remoteIdList filtersPhoto [rowEmptyThumb]
        ≠ localIdList 2025 "T" filtersPhoto [rowEmptyThumb] := by decide

/-- C1 (amended): the remote-clause path and the local-predicate path
keep exactly the same ids (in the same order) for every filter whose
query is already trimmed and free of the characters `%`, `_`, `\` and
`,` (the LIKE wildcards and escape, which the interpolated `ilike`
patterns would interpret, and the separator of the `.or()` filter
string), over datasets in which no row stores an empty-string
`thumbnailUrl` or `youtubeUrl` (as opposed to NULL) and all coordinates
are non-NULL numbers. -/
theorem remote_local_consistency (y : Int) (n : String) (f : SearchFilters)
    (rows : List RawRow) (hq : jsTrim f.query = f.query)
    (hmeta : ∀ c ∈ f.query.data, c ≠ '%' ∧ c ≠ '_' ∧ c ≠ '\\' ∧ c ≠ ',')
    (hw : ∀ r ∈ rows, wellTypedRow r)
    (hp : ∀ r ∈ rows, r.thumbnailUrl ≠ JVal.str "")
    (hv : ∀ r ∈ rows, r.youtubeUrl ≠ JVal.str "")
    (hlat : ∀ r ∈ rows, isNumB r.lat = true)
    (hlng : ∀ r ∈ rows, isNumB r.lng = true) :
    remoteIdList f rows = localIdList y n f rows :=
  remote_local_ids y n f hq
    (fun c hc => ⟨(hmeta c hc).1, (hmeta c hc).2.1⟩) rows hw hp hv hlat hlng

/-- C1 (witness): the amended consistency at a concrete filter and row. -/
theorem remote_local_consistency_w :
    remoteIdList filtersPhoto [rowFull] = localIdList 2025 "T" filtersPhoto [rowFull] :=
  remote_local_consistency 2025 "T" filtersPhoto [rowFull] (by decide) (by decide)
    (by decide) (by decide) (by decide) (by decide) (by decide)

/-- C2 (counterexample): normalization succeeds on a raw row, but
re-applying it to its own output throws (the array-valued taxonomy
fields have no `split` method), so `normalize` is not idempotent. -/
theorem transform_idempotence_cex :
    (transformBuilding 2025 "T" rowA).isOk = true
    ∧ ((transformBuilding 2025 "T" rowA).bind
        (fun b => transformBuilding 2025 "T" (Building.asRaw b))).isOk = false := by decide

/-- C2 (amended): re-normalizing any canonical Building always fails —
the first `parseCommaSeparated` call throws on the array-valued
`parentBuildingTypes` — so `normalize ∘ normalize` never equals
`normalize`; the normalizer is total only on raw schema rows. -/
theorem transform_renormalize_fails (y : Int) (n : String) (b : Building) :
    (transformBuilding y n (Building.asRaw b)).isOk = false := by
  rw [transformBuilding]
  have h : parseCommaSeparated (Building.asRaw b).parentBuildingTypes
      = Except.error "split is not a function" := rfl
  rw [h]
  rfl

/-- C3 (counterexample): a building whose `thumbnailUrl` is the empty
string (non-null) survives the `hasPhotos` filter, contradicting the
claim that survival requires a non-null AND non-empty thumbnail. -/
theorem hasPhotos_empty_thumbnail_cex :
    remoteMatches filtersPhoto rowEmptyThumb = true
    ∧ rowEmptyThumb.thumbnailUrl = JVal.str "" := by decide

/-- C3 (amended): when `hasPhotos` is true the search clause excludes
exactly the buildings whose `thumbnailUrl` is NULL; a building can
survive only with a non-null thumbnail, but an empty-string thumbnail is
NOT excluded. -/
theorem hasPhotos_excludes_only_null (f : SearchFilters) (r : RawRow)
    (hf : f.hasPhotos = true) (hm : remoteMatches f r = true) :
    notNullJ r.thumbnailUrl = true := by
  rw [remoteMatches] at hm
  simp only [Bool.and_eq_true] at hm
  obtain ⟨⟨⟨⟨_, _⟩, hph⟩, _⟩, _⟩ := hm
  rw [remotePhotoClause, hf] at hph
  simpa using hph

/-- C3 (witness): the amended exclusion at a concrete filter and row. -/
theorem hasPhotos_excludes_only_null_w : notNullJ rowFull.thumbnailUrl = true :=
  hasPhotos_excludes_only_null filtersPhoto rowFull (by decide) (by decide)

/-- C4 (code bug): `getBuildings(page=2, limit=1)` over a three-row
dataset returns the correct slice of the year-ordered sequence (the
single middle-year row), but the returned total is 0 rather than 3: the
`select` never requests a count, so the client's `count` is null and
`count || 0` collapses to 0. -/
theorem getBuildings_zero_total_bug :
    getBuildings 2025 "T" 2 1 [rowA, rowB, rowC] = ([buildingOfRow 2025 "T" rowC], 0)
    ∧ ([rowA, rowB, rowC] : List RawRow).length = 3 := by decide

/-- C5: normalization is total on schema rows and produces the documented
defaults — `lat`/`lng` default to 0 when the column is NULL,
`completionYears` defaults to the current year when NULL or unparsable,
and `titleEn` falls back to `title` when NULL. -/
theorem transform_total_defaults (y : Int) (n : String) (r : RawRow) (h : wellTypedRow r) :
    transformBuilding y n r = Except.ok (buildingOfRow y n r)
    ∧ (r.lat = JVal.null → (buildingOfRow y n r).lat = 0)
    ∧ (r.lng = JVal.null → (buildingOfRow y n r).lng = 0)
    ∧ (r.completionYears = JVal.null → (buildingOfRow y n r).completionYears = y)
    ∧ (∀ s, r.completionYears = JVal.str s → parseIntJS s = none →
        (buildingOfRow y n r).completionYears = y)
    ∧ (r.titleEn = JVal.null → (buildingOfRow y n r).titleEn = (buildingOfRow y n r).title) := by
  refine ⟨transform_wellTyped y n h, ?_, ?_, ?_, ?_, ?_⟩
  · intro h'
    show parseFloatOr0 r.lat = 0
    rw [h']; rfl
  · intro h'
    show parseFloatOr0 r.lng = 0
    rw [h']; rfl
  · intro h'
    show parseYear y r.completionYears = y
    rw [h']; rfl
  · intro s hs hnone
    show parseYear y r.completionYears = y
    rw [hs, parseYear]
    by_cases he : s = ""
    · simp [truthy, he]
    · simp [truthy, he, jvalToNumString, hnone]
  · intro h'
    show jsOrElse r.titleEn (strOfJ r.title) = strOfJ r.title
    rw [h']; rfl

/-- C5 (witness): a row missing `lat`, `lng`, `completionYears` and
`titleEn` normalizes without failing and receives every default. -/
theorem transform_total_defaults_w :
    transformBuilding 2025 "T" rowDefaults = Except.ok (buildingOfRow 2025 "T" rowDefaults)
    ∧ (buildingOfRow 2025 "T" rowDefaults).lat = 0
    ∧ (buildingOfRow 2025 "T" rowDefaults).lng = 0
    ∧ (buildingOfRow 2025 "T" rowDefaults).completionYears = 2025
    ∧ (buildingOfRow 2025 "T" rowDefaults).titleEn = (buildingOfRow 2025 "T" rowDefaults).title := by
  have h := transform_total_defaults 2025 "T" rowDefaults (by decide)
  exact ⟨h.1, h.2.1 rfl, h.2.2.1 rfl, h.2.2.2.1 rfl, h.2.2.2.2.2 rfl⟩

/-- C6 (counterexample): a raw row carrying a non-empty photos relation
still normalizes to a Building with an empty `photos` sequence — the
transform ignores the relation entirely (`photos: []`). -/
theorem transform_photos_cex :
    rowWithPhotos.photos = some [photoRow1]
    ∧ transformBuilding 2025 "T" rowWithPhotos
        = Except.ok (buildingOfRow 2025 "T" rowWithPhotos)
    ∧ (buildingOfRow 2025 "T" rowWithPhotos).photos = [] := by decide

/-- C6 (amended): the normalized `photos` field is ALWAYS the empty
sequence, whether or not the raw row carries a photos relation. -/
theorem transform_photos_always_empty (y : Int) (n : String) (r : RawRow) (b : Building)
    (h : transformBuilding y n r = Except.ok b) : b.photos = [] := by
  rw [transform_ok_shape h]
  rfl

/-- C6 (witness): the amended statement at a concrete row that carries a
photos relation. -/
theorem transform_photos_always_empty_w : (buildingOfRow 2025 "T" rowWithPhotos).photos = [] :=
  transform_photos_always_empty 2025 "T" rowWithPhotos (buildingOfRow 2025 "T" rowWithPhotos)
    (by decide)

/-- C7: the availability toggle reaches `available` exactly when the
configuration flag is on and `healthCheck` succeeds; any probe failure
latches `useApi` off and yields `unavailable`; a false flag goes straight
to `unavailable` without probing; and once the flag is off every re-run
stays `unavailable` without probing (no automatic path back to
`available`). -/
theorem useSupabaseToggle_state_machine (flag : Bool) (h : Except String Unit) :
    ((checkApiStatus (initToggle flag) h).1.apiStatus = ApiStatus.available
      ↔ flag = true ∧ h.isOk = true)
    ∧ (h.isOk = false →
        (checkApiStatus (initToggle flag) h).1
          = { useApi := false, apiStatus := ApiStatus.unavailable })
    ∧ (flag = false →
        checkApiStatus (initToggle flag) h
          = ({ useApi := false, apiStatus := ApiStatus.unavailable }, false))
    ∧ (∀ s : ToggleState, s.useApi = false →
        checkApiStatus s h = ({ useApi := false, apiStatus := ApiStatus.unavailable }, false)) := by
  refine ⟨?_, ?_, ?_, ?_⟩
  · cases flag <;> cases h <;>
      simp [checkApiStatus, initToggle, Except.isOk, Except.toBool]
  · intro hfail
    cases flag <;> cases h <;>
      simp_all [checkApiStatus, initToggle, Except.isOk, Except.toBool]
  · intro hf
    subst hf
    rfl
  · intro s hs
    obtain ⟨u, st⟩ := s
    have hu : u = false := hs
    subst hu
    rfl

/-- C7 (witness): with the flag off and a failing probe outcome, the
toggle is unavailable and never probed. -/
theorem useSupabaseToggle_state_machine_w :
    checkApiStatus (initToggle false) probeFail
      = ({ useApi := false, apiStatus := ApiStatus.unavailable }, false) :=
  (useSupabaseToggle_state_machine false probeFail).2.2.1 rfl

/-- C8 (counterexample): when the geospatial procedure fails AND the
fallback search's backend also fails, `getNearbyBuildings` surfaces the
transport error to its caller — it is not error-free. -/
theorem getNearbyBuildings_error_cex :
    getNearbyBuildings 2025 "T" 1 2 3 rpcDown backendDown
      = Except.error "SupabaseApiError 500: db down" := rfl

/-- C8 (amended): every geospatial-procedure failure is discarded and
replaced by the bounding-box `searchBuildings` over the same center and
radius; an error surfaces only if that fallback search itself fails. -/
theorem getNearbyBuildings_silent_fallback (y : Int) (n : String) (lat lng radius : ℚ)
    (rpc backend : Except String (List RawRow)) (e : String) (he : rpc = Except.error e)
    (rows : List RawRow) (hb : backend = Except.ok rows) :
    getNearbyBuildings y n lat lng radius rpc backend
      = Except.ok ((List.insertionSort YearLe
          (rows.filter (remoteMatches (nearbyFallbackFilters lat lng radius)))).filterMap
          (fun r => (transformBuilding y n r).toOption)) := by
  subst he
  subst hb
  rfl

/-- C8 (witness): a failed procedure with a healthy empty backend
resolves without error to the (empty) bounding-box result. -/
theorem getNearbyBuildings_silent_fallback_w :
    getNearbyBuildings 2025 "T" 1 2 3 rpcDown backendEmpty = Except.ok [] := by
  have h := getNearbyBuildings_silent_fallback 2025 "T" 1 2 3 rpcDown backendEmpty
    "rpc down" rfl [] rfl
  simpa using h

/-- C9 (counterexample): ten fetched rows can contribute two suggestions
each, so the suggestion list can exceed 10 entries (here 12 from six
rows), refuting the at-most-10 bound. -/
theorem getSearchSuggestions_over_ten_cex :
    10 < (getSearchSuggestions "a" suggBackend).length := by decide

/-- C9 (amended): the suggestion search returns at most 20 suggestions
(at most two per fetched row over at most 10 rows), deduplicated as a
set, and returns the empty sequence on backend error. -/
theorem getSearchSuggestions_bounded (q : String) (backend : Except String (List RawRow)) :
    (getSearchSuggestions q backend).length ≤ 20
    ∧ (getSearchSuggestions q backend).Nodup
    ∧ (backend.isOk = false → getSearchSuggestions q backend = []) := by
  rcases backend with msg | rows
  · exact ⟨by simp [getSearchSuggestions], by simp [getSearchSuggestions], fun _ => rfl⟩
  · refine ⟨?_, ?_, ?_⟩
    · simp only [getSearchSuggestions]
      have hc := collectSuggestions_length q
        ((rows.filter (fun r => ilikeJ r.title q || ilikeJ r.titleEn q)).take 10) []
      have ht := take_length_le 10 (rows.filter (fun r => ilikeJ r.title q || ilikeJ r.titleEn q))
      simp only [List.length_nil] at hc
      omega
    · exact collectSuggestions_nodup q _ [] List.nodup_nil
    · intro hk
      simp [Except.isOk, Except.toBool] at hk

/-- C9 (witness): the amended bounds at a concrete query against a
failing backend. -/
theorem getSearchSuggestions_bounded_w :
    (getSearchSuggestions "a" backendDown).length ≤ 20
    ∧ (getSearchSuggestions "a" backendDown).Nodup
    ∧ getSearchSuggestions "a" backendDown = [] := by
  have h := getSearchSuggestions_bounded "a" backendDown
  exact ⟨h.1, h.2.1, h.2.2 (by decide)⟩

/-- C10: slug round trip — for every Building whose id is non-negative,
`extractIdFromSlug (generateSlug b)` recovers exactly `b.id`, whatever
the title contains. -/
theorem slug_round_trip (b : Building) (h : 0 ≤ b.id) :
    extractIdFromSlug (generateSlug b) = some b.id := by
  rw [generateSlug, intToString, if_neg (by omega : ¬b.id < 0)]
  rw [extractIdFromSlug]
  rw [slug_data_split b.id.toNat (if b.titleEn = "" then b.title else b.titleEn)]
  rw [takeWhile_slug]
  rw [parseIntJS_digits]
  rw [Int.toNat_of_nonneg h]

/-- C10 (witness): the round trip on a concrete building with id 42 and
a messy bilingual title. -/
theorem slug_round_trip_w : extractIdFromSlug (generateSlug bldSlug) = some 42 :=
  slug_round_trip bldSlug (by decide)
